import Mathlib

/-!
Verification development for the big_a_agent repository.

This file shallowly embeds the orchestration core of `src/stock_agent.py`
(the LangGraph pipeline `analyze_query → execute_tool → generate_response`)
and the four MCP tool wrappers of `src/mcp_server/tushare_mcp_server.py`,
and proves the spec claims about them.

Conventions of the embedding:
* Python strings are Lean `String`s; the Python substring test `k in q`
  is `containsStr q k` (char-list infix).
* The mock payloads returned by `get_mock_stock_data` are flat JSON objects
  of strings and numeric literals; `JPrim.jdec i f` embeds the Python float
  literal `i.f` (every float literal in the source is its own shortest repr,
  so serialization is exact).
* The external generation capability (`self.llm.invoke`) is a parameter
  `llm : Option String`: `some text` models a reply, `none` models the call
  raising (the `except` branch).
* Functions that the source instruments with try/except are total Lean
  functions; where a claim speaks about "no invocation of an external
  capability", the embedded function returns the number of such invocations
  as a second component.
-/

/-- The ASCII single-quote character, used when embedding Python `repr`
and `str(KeyError(...))` output. -/
def squote : String := String.singleton (Char.ofNat 39)

/-- One lowercase hexadecimal digit. -/
def hexDigitChar (n : Nat) : Char :=
  if n < 10 then Char.ofNat (48 + n) else Char.ofNat (87 + (n % 16))

/-- Four-digit lowercase hexadecimal rendering, as in Python json escapes. -/
def hex4 (n : Nat) : String :=
  String.mk [hexDigitChar (n / 4096 % 16), hexDigitChar (n / 256 % 16),
             hexDigitChar (n / 16 % 16), hexDigitChar (n % 16)]

/-- Escape one character the way Python `json.dumps` escapes string
characters; `ea` is the `ensure_ascii` flag (escape non-ASCII as \uXXXX,
using a surrogate pair above U+FFFF). -/
def pyJsonEscapeChar (ea : Bool) (c : Char) : String :=
  if c = Char.ofNat 34 then "\\" ++ String.singleton (Char.ofNat 34)
  else if c = '\\' then "\\\\"
  else if c = '\n' then "\\n"
  else if c = '\t' then "\\t"
  else if c = '\r' then "\\r"
  else if c = Char.ofNat 8 then "\\b"
  else if c = Char.ofNat 12 then "\\f"
  else if c.toNat < 32 then "\\u" ++ hex4 c.toNat
  else if ea && c.toNat > 126 then
    if c.toNat < 65536 then "\\u" ++ hex4 c.toNat
    else
      "\\u" ++ hex4 (55296 + (c.toNat - 65536) / 1024) ++
      "\\u" ++ hex4 (56320 + (c.toNat - 65536) % 1024)
  else String.singleton c

/-- A Python json string literal: quotes around the escaped characters. -/
def pyJsonStr (ea : Bool) (s : String) : String :=
  String.singleton (Char.ofNat 34) ++
    String.join (s.data.map (pyJsonEscapeChar ea)) ++
    String.singleton (Char.ofNat 34)

/-- A primitive JSON value as produced by the source: a string, an integer
literal, or a float literal `i.f` (integer part and fractional digits). -/
inductive JPrim where
  | jstr (s : String)
  | jint (n : Int)
  | jdec (i : Int) (f : String)
deriving DecidableEq, Repr

/-- A flat JSON object (Python dict of primitives), in insertion order. -/
abbrev JObj := List (String × JPrim)

/-- `json.dumps` rendering of one primitive. -/
def JPrim.dumps (ea : Bool) : JPrim → String
  | .jstr s => pyJsonStr ea s
  | .jint n => toString n
  | .jdec i f => toString i ++ "." ++ f

/-- `json.dumps(obj, ensure_ascii=False, indent=2)` on a flat dict, exactly
as called in `generate_final_response` (line 153 of stock_agent.py). -/
def dumpsObjIndent2 (o : JObj) : String :=
  match o with
  | [] => "\x7b\x7d"
  | _ => "\x7b\n" ++
      String.intercalate ",\n"
        (o.map (fun kv => "  " ++ pyJsonStr false kv.1 ++ ": " ++ kv.2.dumps false)) ++
      "\n\x7d"

/-- `json.dumps(obj)` with default options (`ensure_ascii=True`, no indent),
as called in the MCP server error paths. -/
def pyJsonDumpsFlat (o : JObj) : String :=
  "\x7b" ++
    String.intercalate ", "
      (o.map (fun kv => pyJsonStr true kv.1 ++ ": " ++ kv.2.dumps true)) ++
  "\x7d"

/-- Python `repr` of one primitive (strings in this program contain no
quote or backslash characters, so single-quoting suffices). -/
def JPrim.pyRepr : JPrim → String
  | .jstr s => squote ++ s ++ squote
  | .jint n => toString n
  | .jdec i f => toString i ++ "." ++ f

/-- Python `repr`/`str` of a flat dict. -/
def objPyRepr (o : JObj) : String :=
  "\x7b" ++
    String.intercalate ", "
      (o.map (fun kv => JPrim.pyRepr (.jstr kv.1) ++ ": " ++ kv.2.pyRepr)) ++
  "\x7d"

/-- The possible values of the `tool_result` state field (`Any` in the
source): `None` initially, a mock-data dict on success, an error string on
the exception path. -/
inductive ToolVal where
  | none
  | obj (o : JObj)
  | str (s : String)
deriving DecidableEq, Repr

/-- Python `str(...)` of a `tool_result` value, as used by the f-string in
the failure branch of `generate_final_response`. -/
def ToolVal.pyStr : ToolVal → String
  | .none => "None"
  | .obj o => objPyRepr o
  | .str s => s

/-- `json.dumps(value, ensure_ascii=False, indent=2)` on a `tool_result`. -/
def ToolVal.dumpsIndent2 : ToolVal → String
  | .none => "null"
  | .obj o => dumpsObjIndent2 o
  | .str s => pyJsonStr false s

/-- Auxiliary substring scan: is `needle` a contiguous infix of `hay`? -/
def infixScan (needle : List Char) : List Char → Bool
  | [] => needle.isEmpty
  | c :: rest => needle.isPrefixOf (c :: rest) || infixScan needle rest

/-- Python substring test `needle in hay`. -/
def containsStr (hay needle : String) : Bool :=
  infixScan needle.data hay.data

/-- Python `any(keyword in question for keyword in kws)`. -/
def containsAny (question : String) (kws : List String) : Bool :=
  kws.any (fun k => containsStr question k)

/-- The dict returned by `StockQueryAgent.parse_tool_call`. -/
structure ToolCall where
  tool_name : String
  tool_args : List (String × String)
deriving DecidableEq, Repr

/-- `StockQueryAgent.parse_tool_call` (stock_agent.py lines 169-201):
keyword classification of the question, with a default stock code and a
default tool, each overridden by the first matching keyword group. -/
def parse_tool_call (question : String) : ToolCall :=
  let stock_code : String :=
    if containsAny question ["茅台", "600519"] then "600519.SH"
    else if containsAny question ["平安", "000001"] then "000001.SZ"
    else if containsAny question ["招商", "600036"] then "600036.SH"
    else if containsAny question ["万科", "000002"] then "000002.SZ"
    else "000001.SZ"
  let tool_name : String :=
    if containsAny question ["实时", "当前", "现在", "最新"] then "get_realtime_price"
    else if containsAny question ["价格", "股价", "走势", "k线", "行情"] then "get_stock_price"
    else if containsAny question ["财务", "指标", "业绩", "盈利", "收益"] then "get_financial_indicator"
    else if containsAny question ["信息", "基本", "概况", "介绍", "公司"] then "get_stock_basic"
    else "get_stock_basic"
  { tool_name := tool_name, tool_args := [("stock_code", stock_code)] }

/-- The LangGraph `AgentState` TypedDict (stock_agent.py lines 23-30).
`conversation_history` holds the contents of the appended `HumanMessage`s. -/
structure AgentState where
  question : String
  tool_name : String
  tool_args : List (String × String)
  tool_result : ToolVal
  success : Bool
  answer : String
  conversation_history : List String
deriving DecidableEq, Repr

/-- `StockQueryAgent.get_mock_stock_data` (stock_agent.py lines 98-144). -/
def get_mock_stock_data (tool_name stock_code : String) : JObj :=
  if tool_name = "get_stock_basic" then
    [("ts_code", .jstr stock_code),
     ("name", .jstr (if stock_code = "600519.SH" then "贵州茅台" else "平安银行")),
     ("area", .jstr (if stock_code = "600519.SH" then "贵州" else "广东")),
     ("industry", .jstr "白酒"),
     ("market", .jstr "主板"),
     ("exchange", .jstr (if stock_code.endsWith ".SH" then "SSE" else "SZSE")),
     ("list_date", .jstr "2001-08-27"),
     ("fullname", .jstr (if stock_code = "600519.SH" then "贵州茅台酒股份有限公司"
                         else "平安银行股份有限公司"))]
  else if tool_name = "get_stock_price" then
    [("ts_code", .jstr stock_code),
     ("trade_date", .jstr "2024-01-15"),
     ("open", .jdec 1650 "0"),
     ("high", .jdec 1680 "0"),
     ("low", .jdec 1645 "0"),
     ("close", .jdec 1675 "5"),
     ("vol", .jint 5000000),
     ("amount", .jint 8375000000)]
  else if tool_name = "get_realtime_price" then
    [("ts_code", .jstr stock_code),
     ("name", .jstr (if stock_code = "600519.SH" then "贵州茅台" else "平安银行")),
     ("price", .jdec 1675 "5"),
     ("change", .jdec 25 "5"),
     ("change_percent", .jdec 1 "55"),
     ("volume", .jint 50000),
     ("amount", .jint 83750000),
     ("time", .jstr "14:30:00")]
  else if tool_name = "get_financial_indicator" then
    [("ts_code", .jstr stock_code),
     ("ann_date", .jstr "2023-10-28"),
     ("end_date", .jstr "2023-09-30"),
     ("eps", .jdec 15 "88"),
     ("bps", .jdec 125 "36"),
     ("roe", .jdec 12 "67"),
     ("profit_margin", .jdec 52 "3")]
  else
    [("error", .jstr "未知工具类型")]

/-- Workstation 1, `StockQueryAgent.analyze_user_query` (lines 65-73):
parses the question and appends one `HumanMessage` to the history. -/
def analyze_user_query (s : AgentState) : AgentState :=
  let tc := parse_tool_call s.question
  { s with
    tool_name := tc.tool_name,
    tool_args := tc.tool_args,
    conversation_history := s.conversation_history ++ [s.question] }

/-- Workstation 2, `StockQueryAgent.execute_tool_call` (lines 76-95).
The only statement in the `try` block that can raise is the lookup
`state["tool_args"]["stock_code"]` (a `KeyError` when the key is absent);
everything else is a pure computation over local mock data.  The second
component counts invocations of registered external capabilities (the MCP
tools / network): the source contacts none, on any path. -/
def execute_tool_call (s : AgentState) : AgentState × Nat :=
  match s.tool_args.lookup "stock_code" with
  | some stock_code =>
      ({ s with
         tool_result := .obj (get_mock_stock_data s.tool_name stock_code),
         success := true }, 0)
  | Option.none =>
      ({ s with
         tool_result := .str ("工具调用失败: " ++ squote ++ "stock_code" ++ squote),
         success := false }, 0)

/-- Workstation 3, `StockQueryAgent.generate_final_response` (lines
146-167).  `llm = some text` models `self.llm.invoke` returning `text`,
`llm = none` models it raising (the `except` branch falls back to the
serialized data).  The second component counts attempted invocations of
the generation capability: 0 on the failure branch (early return before
any message is built), 1 on the success branch. -/
def generate_final_response (llm : Option String) (s : AgentState) : AgentState × Nat :=
  if s.success = false then
    ({ s with answer := "查询失败：" ++ s.tool_result.pyStr }, 0)
  else
    let data_summary := s.tool_result.dumpsIndent2
    match llm with
    | some text => ({ s with answer := text }, 1)
    | Option.none => ({ s with answer := "查询结果：\n" ++ data_summary }, 1)

/-- The nodes of the compiled LangGraph workflow
(`create_workflow`, lines 49-63), plus the END sentinel. -/
inductive WNode where
  | analyze_query
  | execute_tool
  | generate_response
  | finish
deriving DecidableEq, Repr

/-- One transition of the compiled workflow: the edges
`analyze_query → execute_tool → generate_response → END` of
`create_workflow`.  `END` is absorbing. -/
def workflow_step (llm : Option String) : WNode → AgentState → WNode × AgentState
  | .analyze_query, s => (.execute_tool, analyze_user_query s)
  | .execute_tool, s => (.generate_response, (execute_tool_call s).1)
  | .generate_response, s => (.finish, (generate_final_response llm s).1)
  | .finish, s => (.finish, s)

/-- Run `n` transitions of the workflow. -/
def workflow_run (llm : Option String) : Nat → WNode × AgentState → WNode × AgentState
  | 0, ns => ns
  | n + 1, ns => workflow_run llm n (workflow_step llm ns.1 ns.2)

/-- The nodes visited by `n` transitions (including start and end node). -/
def workflow_visits (llm : Option String) : Nat → WNode × AgentState → List WNode
  | 0, ns => [ns.1]
  | n + 1, ns => ns.1 :: workflow_visits llm n (workflow_step llm ns.1 ns.2)

/-- The initial state dict passed to `workflow.ainvoke` on every loop
iteration of `chat_with_agent` (stock_agent.py lines 243-251): note
`conversation_history` is the empty list on every turn. -/
def initial_state (question : String) : AgentState :=
  { question := question,
    tool_name := "",
    tool_args := [],
    tool_result := .none,
    success := false,
    answer := "",
    conversation_history := [] }

/-- One turn of `chat_with_agent`: invoke the compiled workflow on the
fresh initial state for the user's question. -/
def run_turn (llm : Option String) (question : String) : AgentState :=
  (workflow_run llm 3 (.analyze_query, initial_state question)).2

/-- The interactive loop of `chat_with_agent`, restricted to the processed
inputs (non-empty, non-exit lines): each one is a fresh workflow
invocation; no state is carried from one iteration to the next. -/
def chat_session (llm : Option String) (inputs : List String) : List AgentState :=
  inputs.map (run_turn llm)

namespace McpServer

/-- `get_stock_basic` of tushare_mcp_server.py (lines 32-47).  The call
`api.stock_basic(ts_code=stock_code)` followed by `.to_json(...)` is modeled
by `provider stock_code : Except String String`: `ok j` is the serialized
dataframe, `error e` is a raised exception with message `str(e) = e`.
On error the tool returns `json.dumps({'error': str(e)})`. -/
def get_stock_basic (provider : String → Except String String)
    (stock_code : String) : String :=
  match provider stock_code with
  | .ok j => j
  | .error e => pyJsonDumpsFlat [("error", .jstr e)]

/-- `get_stock_price` (lines 50-61): on error returns the plain f-string
`f"错误；{str(e)}"`, not JSON. -/
def get_stock_price (provider : String → Except String String)
    (stock_code : String) : String :=
  match provider stock_code with
  | .ok j => j
  | .error e => "错误；" ++ e

/-- `get_realtime_price` (lines 64-71). -/
def get_realtime_price (provider : String → Except String String)
    (stock_code : String) : String :=
  match provider stock_code with
  | .ok j => j
  | .error e => pyJsonDumpsFlat [("error", .jstr e)]

/-- `get_financial_indicator` (lines 74-85), with the default period
parameter `period='20231231'`; the provider takes both arguments. -/
def get_financial_indicator (provider : String → String → Except String String)
    (stock_code : String) (period : String := "20231231") : String :=
  match provider stock_code period with
  | .ok j => j
  | .error e => pyJsonDumpsFlat [("error", .jstr e)]

end McpServer

/-! ### Helper lemmas -/

theorem execute_keeps_history (s : AgentState) :
    ((execute_tool_call s).1).conversation_history = s.conversation_history := by
  unfold execute_tool_call
  cases List.lookup "stock_code" s.tool_args <;> rfl

theorem generate_keeps_history (llm : Option String) (s : AgentState) :
    ((generate_final_response llm s).1).conversation_history =
      s.conversation_history := by
  unfold generate_final_response
  by_cases h : s.success = false
  · simp [h]
  · cases llm <;> simp [h]

theorem run_turn_unfold (llm : Option String) (q : String) :
    run_turn llm q =
      (generate_final_response llm
        ((execute_tool_call (analyze_user_query (initial_state q))).1)).1 := rfl

theorem run_turn_history (llm : Option String) (q : String) :
    (run_turn llm q).conversation_history = [q] := by
  rw [run_turn_unfold, generate_keeps_history, execute_keeps_history]
  simp [analyze_user_query, initial_state]

/-! ### Claims -/

/-- C1 counterexample: two consecutive turns of `chat_with_agent` on the
single session.  Each turn appends exactly one record to the conversation
history, yet the stored history after the second turn has length 1 — not
1 + 1 = 2 as the claim requires — because every `workflow.ainvoke` call is
made with `conversation_history: []`. -/
theorem C1_counterexample :
    chat_session Option.none ["查询茅台", "茅台的价格"] =
      [run_turn Option.none "查询茅台", run_turn Option.none "茅台的价格"] ∧
    (run_turn Option.none "查询茅台").conversation_history = ["查询茅台"] ∧
    (run_turn Option.none "茅台的价格").conversation_history = ["茅台的价格"] ∧
    (run_turn Option.none "茅台的价格").conversation_history.length ≠ 1 + 1 := by
  refine ⟨rfl, run_turn_history _ _, run_turn_history _ _, ?_⟩
  rw [run_turn_history]
  decide

/-- C1 (amended): conversation state does not persist across turns.  Every
turn's workflow invocation starts from an empty history; within one turn
the analyze step appends exactly one record (and no step removes any), so
after any sequence of turns each turn's resulting history is exactly its
own question, regardless of earlier turns. -/
theorem C1_history_reset_each_turn (llm : Option String)
    (inputs : List String) (s : AgentState) :
    (chat_session llm inputs).map (fun t => t.conversation_history) =
      inputs.map (fun q => [q]) ∧
    (analyze_user_query s).conversation_history =
      s.conversation_history ++ [s.question] := by
  constructor
  · unfold chat_session
    rw [List.map_map]
    exact List.map_congr_left (fun q _ => run_turn_history llm q)
  · rfl

/-- C8: the compiled workflow is strictly linear and total: from the entry
node every execution visits `analyze_query`, `execute_tool`,
`generate_response` exactly once, in that order, then reaches END and stays
there; the final state is the composition of the three (total) node
functions, so no component error reaches the loop controller as a raised
exception. -/
theorem C8_pipeline_linear_total (llm : Option String) (s : AgentState) :
    workflow_visits llm 3 (WNode.analyze_query, s) =
      [WNode.analyze_query, WNode.execute_tool, WNode.generate_response,
       WNode.finish] ∧
    (workflow_run llm 3 (WNode.analyze_query, s)).1 = WNode.finish ∧
    (workflow_run llm 3 (WNode.analyze_query, s)).2 =
      (generate_final_response llm
        ((execute_tool_call (analyze_user_query s)).1)).1 ∧
    (∀ n t, workflow_run llm n (WNode.finish, t) = (WNode.finish, t)) := by
  refine ⟨rfl, rfl, rfl, ?_⟩
  intro n
  induction n with
  | zero => intro t; rfl
  | succ m ih => intro t; exact ih t

/-- C2 counterexample: a call whose operation name `"frobnicate"` is
outside the closed enumeration.  `execute_tool_call` marks the result as a
success (`success = true`) instead of the `Failure(UnknownTool, …)` with
success flag false that the claim requires: the unknown-tool error object
is produced by `get_mock_stock_data` and then wrapped by the success
branch of the `try` block. -/
theorem C2_counterexample :
    ("frobnicate" ∉ ["get_stock_basic", "get_stock_price",
        "get_realtime_price", "get_financial_indicator"]) ∧
    (execute_tool_call
      { question := "", tool_name := "frobnicate",
        tool_args := [("stock_code", "000001.SZ")],
        tool_result := .none, success := false, answer := "",
        conversation_history := [] }).1.success = true := by
  constructor
  · decide
  · rfl

/-- C2 (amended): for every call whose operation name is outside the
closed enumeration (and whose arguments carry a stock code), the
tool-execution step returns the fixed error payload
`{"error": "未知工具类型"}` with the success flag TRUE — not a Failure —
and performs no invocation of any registered capability (the invocation
count is 0). -/
theorem C2_unknown_tool_not_failure (s : AgentState) (code : String)
    (hcode : s.tool_args.lookup "stock_code" = some code)
    (hname : s.tool_name ∉ ["get_stock_basic", "get_stock_price",
        "get_realtime_price", "get_financial_indicator"]) :
    (execute_tool_call s).1.tool_result =
      ToolVal.obj [("error", JPrim.jstr "未知工具类型")] ∧
    (execute_tool_call s).1.success = true ∧
    (execute_tool_call s).2 = 0 := by
  simp only [List.mem_cons, List.not_mem_nil, or_false, not_or] at hname
  obtain ⟨h1, h2, h3, h4⟩ := hname
  unfold execute_tool_call
  rw [hcode]
  refine ⟨?_, rfl, rfl⟩
  simp [get_mock_stock_data, h1, h2, h3, h4]

/-- Witness for C2's amended theorem at a concrete unknown-tool state. -/
theorem C2_unknown_tool_not_failure_witness :
    (execute_tool_call
      { question := "随便", tool_name := "frobnicate2",
        tool_args := [("stock_code", "600519.SH")],
        tool_result := .none, success := false, answer := "",
        conversation_history := [] }).1.tool_result =
      ToolVal.obj [("error", JPrim.jstr "未知工具类型")] ∧
    (execute_tool_call
      { question := "随便", tool_name := "frobnicate2",
        tool_args := [("stock_code", "600519.SH")],
        tool_result := .none, success := false, answer := "",
        conversation_history := [] }).1.success = true ∧
    (execute_tool_call
      { question := "随便", tool_name := "frobnicate2",
        tool_args := [("stock_code", "600519.SH")],
        tool_result := .none, success := false, answer := "",
        conversation_history := [] }).2 = 0 :=
  C2_unknown_tool_not_failure _ "600519.SH" rfl (by decide)

/-- C3 counterexample: a successful tool result whose generation call
raises (`llm = none`).  The answer is NOT byte-for-byte equal to the
canonical serialization of the payload: the code prepends the fixed prefix
`"查询结果：\n"` (stock_agent.py line 167). -/
theorem C3_counterexample :
    (generate_final_response Option.none
      { question := "茅台的基本信息", tool_name := "get_stock_basic",
        tool_args := [("stock_code", "600519.SH")],
        tool_result := .obj [("ts_code", .jstr "600519.SH")],
        success := true, answer := "",
        conversation_history := ["茅台的基本信息"] }).1.answer ≠
      ToolVal.dumpsIndent2 (.obj [("ts_code", .jstr "600519.SH")]) ∧
    (generate_final_response Option.none
      { question := "茅台的基本信息", tool_name := "get_stock_basic",
        tool_args := [("stock_code", "600519.SH")],
        tool_result := .obj [("ts_code", .jstr "600519.SH")],
        success := true, answer := "",
        conversation_history := ["茅台的基本信息"] }).1.answer =
      "查询结果：\n" ++ ToolVal.dumpsIndent2 (.obj [("ts_code", .jstr "600519.SH")]) := by
  constructor
  · decide
  · rfl

/-- C3 (amended): for every successful tool result, if the external
generation call raises, the response synthesizer returns as the answer the
canonical serialization of the structured payload preceded by the fixed
prefix `"查询结果：\n"`; the serialization itself is exact and the
component never raises past its boundary (the embedded function is total),
but the answer is the prefix plus the serialization, not the bare
serialization.  The generation capability was attempted exactly once. -/
theorem C3_fallback_prefixed_payload (s : AgentState) (h : s.success = true) :
    (generate_final_response Option.none s).1.answer =
      "查询结果：\n" ++ s.tool_result.dumpsIndent2 ∧
    (generate_final_response Option.none s).2 = 1 := by
  unfold generate_final_response
  simp [h]

/-- Witness for C3's amended theorem at a concrete successful state. -/
theorem C3_fallback_prefixed_payload_witness :
    (generate_final_response Option.none
      { question := "平安银行财务", tool_name := "get_financial_indicator",
        tool_args := [("stock_code", "000001.SZ")],
        tool_result := .obj [("eps", .jdec 15 "88")],
        success := true, answer := "",
        conversation_history := ["平安银行财务"] }).1.answer =
      "查询结果：\n" ++
        ToolVal.dumpsIndent2 (.obj [("eps", .jdec 15 "88")]) ∧
    (generate_final_response Option.none
      { question := "平安银行财务", tool_name := "get_financial_indicator",
        tool_args := [("stock_code", "000001.SZ")],
        tool_result := .obj [("eps", .jdec 15 "88")],
        success := true, answer := "",
        conversation_history := ["平安银行财务"] }).2 = 1 :=
  C3_fallback_prefixed_payload _ rfl

/-- C6: for every state whose tool result is marked as a failure
(`success = false`), the response-generation step returns the fixed-format
answer `"查询失败：" ++ str(tool_result)` (the failure's message), performs
no invocation of the external generation capability (count 0), and its
output does not depend on the generation capability at all. -/
theorem C6_failure_fixed_format (llm : Option String) (s : AgentState)
    (h : s.success = false) :
    (generate_final_response llm s).1.answer =
      "查询失败：" ++ s.tool_result.pyStr ∧
    (generate_final_response llm s).2 = 0 ∧
    generate_final_response llm s = generate_final_response Option.none s := by
  unfold generate_final_response
  simp [h]

/-- Witness for C6 at a concrete failed state (the `KeyError` path of
`execute_tool_call`). -/
theorem C6_failure_fixed_format_witness :
    (generate_final_response (some "ｘ")
      { question := "茅台", tool_name := "get_stock_basic",
        tool_args := [],
        tool_result := .str ("工具调用失败: " ++ squote ++ "stock_code" ++ squote),
        success := false, answer := "",
        conversation_history := ["茅台"] }).1.answer =
      "查询失败：" ++
        ToolVal.pyStr (.str ("工具调用失败: " ++ squote ++ "stock_code" ++ squote)) ∧
    (generate_final_response (some "ｘ")
      { question := "茅台", tool_name := "get_stock_basic",
        tool_args := [],
        tool_result := .str ("工具调用失败: " ++ squote ++ "stock_code" ++ squote),
        success := false, answer := "",
        conversation_history := ["茅台"] }).2 = 0 ∧
    generate_final_response (some "ｘ")
      { question := "茅台", tool_name := "get_stock_basic",
        tool_args := [],
        tool_result := .str ("工具调用失败: " ++ squote ++ "stock_code" ++ squote),
        success := false, answer := "",
        conversation_history := ["茅台"] } =
    generate_final_response Option.none
      { question := "茅台", tool_name := "get_stock_basic",
        tool_args := [],
        tool_result := .str ("工具调用失败: " ++ squote ++ "stock_code" ++ squote),
        success := false, answer := "",
        conversation_history := ["茅台"] } :=
  C6_failure_fixed_format _ _ rfl

/-- C4: operation resolution follows the fixed priority order of the
keyword groups: realtime first, then price, then financial, and
`get_stock_basic` otherwise; a query matching several groups resolves to
the first group tested in this order. -/
theorem C4_operation_priority (q : String) :
    (containsAny q ["实时", "当前", "现在", "最新"] = true →
      (parse_tool_call q).tool_name = "get_realtime_price") ∧
    (containsAny q ["实时", "当前", "现在", "最新"] = false →
      containsAny q ["价格", "股价", "走势", "k线", "行情"] = true →
      (parse_tool_call q).tool_name = "get_stock_price") ∧
    (containsAny q ["实时", "当前", "现在", "最新"] = false →
      containsAny q ["价格", "股价", "走势", "k线", "行情"] = false →
      containsAny q ["财务", "指标", "业绩", "盈利", "收益"] = true →
      (parse_tool_call q).tool_name = "get_financial_indicator") ∧
    (containsAny q ["实时", "当前", "现在", "最新"] = false →
      containsAny q ["价格", "股价", "走势", "k线", "行情"] = false →
      containsAny q ["财务", "指标", "业绩", "盈利", "收益"] = false →
      (parse_tool_call q).tool_name = "get_stock_basic") := by
  refine ⟨fun h1 => ?_, fun h1 h2 => ?_, fun h1 h2 h3 => ?_, fun h1 h2 h3 => ?_⟩
  · simp [parse_tool_call, h1]
  · simp [parse_tool_call, h1, h2]
  · simp [parse_tool_call, h1, h2, h3]
  · simp [parse_tool_call, h1, h2, h3]

/-- Witness for C4 on a query matching both the realtime group (`最新`)
and the price group (`股价`): the first group tested wins. -/
theorem C4_operation_priority_witness :
    containsAny "最新股价" ["实时", "当前", "现在", "最新"] = true ∧
    containsAny "最新股价" ["价格", "股价", "走势", "k线", "行情"] = true ∧
    (parse_tool_call "最新股价").tool_name = "get_realtime_price" :=
  ⟨by decide, by decide, (C4_operation_priority "最新股价").1 (by decide)⟩

/-- C5 counterexample: the query `"茅台招商"` contains the keyword
`"招商"`, whose keyword group's documented code is `600036.SH`, yet the
classifier resolves the identifier to `600519.SH`, because the 茅台 group
is tested first — so "every query containing a given identifier keyword
resolves to that group's code regardless of the rest of the query" is
false as stated. -/
theorem C5_counterexample :
    containsStr "茅台招商" "招商" = true ∧
    (parse_tool_call "茅台招商").tool_args = [("stock_code", "600519.SH")] ∧
    "600519.SH" ≠ "600036.SH" := by
  refine ⟨by decide, by decide, by decide⟩

/-- C5 (amended): identifier resolution follows the fixed first-match
priority: the 茅台/600519 group is tested first (so every query containing
`"茅台"` or `"600519"` resolves to `600519.SH` regardless of the rest of
the query), then 平安/000001 → `000001.SZ`, then 招商/600036 → `600036.SH`,
then 万科/000002 → `000002.SZ`; a query containing a later group's keyword
resolves to that group's code only when no earlier group matched, and a
query matching no identifier keyword gets the default `000001.SZ`. -/
theorem C5_identifier_priority (q : String) :
    (containsAny q ["茅台", "600519"] = true →
      (parse_tool_call q).tool_args = [("stock_code", "600519.SH")]) ∧
    (containsAny q ["茅台", "600519"] = false →
      containsAny q ["平安", "000001"] = true →
      (parse_tool_call q).tool_args = [("stock_code", "000001.SZ")]) ∧
    (containsAny q ["茅台", "600519"] = false →
      containsAny q ["平安", "000001"] = false →
      containsAny q ["招商", "600036"] = true →
      (parse_tool_call q).tool_args = [("stock_code", "600036.SH")]) ∧
    (containsAny q ["茅台", "600519"] = false →
      containsAny q ["平安", "000001"] = false →
      containsAny q ["招商", "600036"] = false →
      containsAny q ["万科", "000002"] = true →
      (parse_tool_call q).tool_args = [("stock_code", "000002.SZ")]) ∧
    (containsAny q ["茅台", "600519"] = false →
      containsAny q ["平安", "000001"] = false →
      containsAny q ["招商", "600036"] = false →
      containsAny q ["万科", "000002"] = false →
      (parse_tool_call q).tool_args = [("stock_code", "000001.SZ")]) := by
  refine ⟨fun h1 => ?_, fun h1 h2 => ?_, fun h1 h2 h3 => ?_,
    fun h1 h2 h3 h4 => ?_, fun h1 h2 h3 h4 => ?_⟩
  · simp [parse_tool_call, h1]
  · simp [parse_tool_call, h1, h2]
  · simp [parse_tool_call, h1, h2, h3]
  · simp [parse_tool_call, h1, h2, h3, h4]
  · simp [parse_tool_call, h1, h2, h3, h4]

/-- Witness for C5's amended theorem: `"茅台招商"` contains a first-group
keyword, so it resolves to `600519.SH` despite also containing `"招商"`. -/
theorem C5_identifier_priority_witness :
    containsAny "茅台招商" ["茅台", "600519"] = true ∧
    (parse_tool_call "茅台招商").tool_args = [("stock_code", "600519.SH")] :=
  ⟨by decide, (C5_identifier_priority "茅台招商").1 (by decide)⟩

/-- C7: the intent router is total and complete: for every question it
returns a `ToolCall` whose tool name is one of the four names of the
closed enumeration and whose arguments always carry a non-empty
`stock_code` (including the default when nothing matched); being a total
Lean function, it never raises. -/
theorem C7_router_complete (q : String) :
    ((parse_tool_call q).tool_name = "get_stock_basic" ∨
     (parse_tool_call q).tool_name = "get_stock_price" ∨
     (parse_tool_call q).tool_name = "get_realtime_price" ∨
     (parse_tool_call q).tool_name = "get_financial_indicator") ∧
    (∃ code, (parse_tool_call q).tool_args.lookup "stock_code" = some code ∧
      code ≠ "") := by
  constructor
  · simp only [parse_tool_call]
    split_ifs <;> simp
  · simp only [parse_tool_call, List.lookup]
    split_ifs <;> exact ⟨_, rfl, by decide⟩

/-- C9: the tool-execution step is deterministic in exactly
(`tool_name`, `tool_args["stock_code"]`): two states agreeing on those two
values get equal `tool_result` and equal `success`, and neither execution
invokes a registered capability or network endpoint (invocation count 0 —
the result is fixed mock data). -/
theorem C9_execute_deterministic (s₁ s₂ : AgentState)
    (hn : s₁.tool_name = s₂.tool_name)
    (ha : s₁.tool_args.lookup "stock_code" = s₂.tool_args.lookup "stock_code") :
    (execute_tool_call s₁).1.tool_result = (execute_tool_call s₂).1.tool_result ∧
    (execute_tool_call s₁).1.success = (execute_tool_call s₂).1.success ∧
    (execute_tool_call s₁).2 = 0 ∧ (execute_tool_call s₂).2 = 0 := by
  unfold execute_tool_call
  rw [ha, hn]
  cases h : List.lookup "stock_code" s₂.tool_args <;> simp [h]

/-- Witness for C9: two states equal only in tool name and stock code
(different question, argument list, answer, history) produce identical
results. -/
theorem C9_execute_deterministic_witness :
    (execute_tool_call
      { question := "今天茅台股价", tool_name := "get_stock_price",
        tool_args := [("stock_code", "600519.SH")],
        tool_result := .none, success := false, answer := "",
        conversation_history := [] }).1.tool_result =
    (execute_tool_call
      { question := "完全不同的问题", tool_name := "get_stock_price",
        tool_args := [("extra", "1"), ("stock_code", "600519.SH")],
        tool_result := .str "旧结果", success := true, answer := "旧回答",
        conversation_history := ["旧历史"] }).1.tool_result ∧
    (execute_tool_call
      { question := "今天茅台股价", tool_name := "get_stock_price",
        tool_args := [("stock_code", "600519.SH")],
        tool_result := .none, success := false, answer := "",
        conversation_history := [] }).1.success =
    (execute_tool_call
      { question := "完全不同的问题", tool_name := "get_stock_price",
        tool_args := [("extra", "1"), ("stock_code", "600519.SH")],
        tool_result := .str "旧结果", success := true, answer := "旧回答",
        conversation_history := ["旧历史"] }).1.success ∧
    (execute_tool_call
      { question := "今天茅台股价", tool_name := "get_stock_price",
        tool_args := [("stock_code", "600519.SH")],
        tool_result := .none, success := false, answer := "",
        conversation_history := [] }).2 = 0 ∧
    (execute_tool_call
      { question := "完全不同的问题", tool_name := "get_stock_price",
        tool_args := [("extra", "1"), ("stock_code", "600519.SH")],
        tool_result := .str "旧结果", success := true, answer := "旧回答",
        conversation_history := ["旧历史"] }).2 = 0 :=
  C9_execute_deterministic _ _ rfl (by decide)

/-- The default-options `json.dumps({'error': e})` output starts with an
opening brace, for every message `e`. -/
theorem errorObjHead (e : String) :
    (pyJsonDumpsFlat [("error", JPrim.jstr e)]).data.head? =
      some (Char.ofNat 123) := rfl

/-- The `get_stock_price` error string starts with `错`, for every `e`. -/
theorem priceErrorHead (e : String) :
    ("错误；" ++ e).data.head? = some '错' := rfl

/-- C10: each MCP tool catches every exception of its data-provider call
and returns a string instead of raising (the embedded functions are total
over the provider outcome); on the error path `get_stock_basic`,
`get_realtime_price` and `get_financial_indicator` return the JSON object
`json.dumps({'error': str(e)})` (starting with a brace), while
`get_stock_price` returns the plain non-JSON string `"错误；" ++ e`
(starting with `错`, never with a brace): the four error shapes are not
uniform. -/
theorem C10_mcp_error_shapes (e code : String)
    (pb pp pr : String → Except String String)
    (pf : String → String → Except String String)
    (hb : pb code = Except.error e) (hp : pp code = Except.error e)
    (hr : pr code = Except.error e)
    (hf : pf code "20231231" = Except.error e) :
    McpServer.get_stock_basic pb code =
      pyJsonDumpsFlat [("error", JPrim.jstr e)] ∧
    McpServer.get_realtime_price pr code =
      pyJsonDumpsFlat [("error", JPrim.jstr e)] ∧
    McpServer.get_financial_indicator pf code =
      pyJsonDumpsFlat [("error", JPrim.jstr e)] ∧
    McpServer.get_stock_price pp code = "错误；" ++ e ∧
    (McpServer.get_stock_basic pb code).data.head? = some (Char.ofNat 123) ∧
    (McpServer.get_realtime_price pr code).data.head? = some (Char.ofNat 123) ∧
    (McpServer.get_financial_indicator pf code).data.head? =
      some (Char.ofNat 123) ∧
    (McpServer.get_stock_price pp code).data.head? = some '错' ∧
    ('错' : Char) ≠ Char.ofNat 123 := by
  have eb : McpServer.get_stock_basic pb code =
      pyJsonDumpsFlat [("error", JPrim.jstr e)] := by
    unfold McpServer.get_stock_basic
    rw [hb]
  have er : McpServer.get_realtime_price pr code =
      pyJsonDumpsFlat [("error", JPrim.jstr e)] := by
    unfold McpServer.get_realtime_price
    rw [hr]
  have ef : McpServer.get_financial_indicator pf code =
      pyJsonDumpsFlat [("error", JPrim.jstr e)] := by
    unfold McpServer.get_financial_indicator
    rw [hf]
  have ep : McpServer.get_stock_price pp code = "错误；" ++ e := by
    unfold McpServer.get_stock_price
    rw [hp]
  refine ⟨eb, er, ef, ep, ?_, ?_, ?_, ?_, by decide⟩
  · rw [eb]; exact errorObjHead e
  · rw [er]; exact errorObjHead e
  · rw [ef]; exact errorObjHead e
  · rw [ep]; exact priceErrorHead e

/-- Witness for C10 with a concrete provider that always raises `"boom"`. -/
theorem C10_mcp_error_shapes_witness :
    McpServer.get_stock_basic (fun _ => Except.error "boom") "000001.SZ" =
      pyJsonDumpsFlat [("error", JPrim.jstr "boom")] ∧
    McpServer.get_realtime_price (fun _ => Except.error "boom") "000001.SZ" =
      pyJsonDumpsFlat [("error", JPrim.jstr "boom")] ∧
    McpServer.get_financial_indicator (fun _ _ => Except.error "boom")
        "000001.SZ" =
      pyJsonDumpsFlat [("error", JPrim.jstr "boom")] ∧
    McpServer.get_stock_price (fun _ => Except.error "boom") "000001.SZ" =
      "错误；" ++ "boom" ∧
    (McpServer.get_stock_basic (fun _ => Except.error "boom")
        "000001.SZ").data.head? = some (Char.ofNat 123) ∧
    (McpServer.get_realtime_price (fun _ => Except.error "boom")
        "000001.SZ").data.head? = some (Char.ofNat 123) ∧
    (McpServer.get_financial_indicator (fun _ _ => Except.error "boom")
        "000001.SZ").data.head? = some (Char.ofNat 123) ∧
    (McpServer.get_stock_price (fun _ => Except.error "boom")
        "000001.SZ").data.head? = some '错' ∧
    ('错' : Char) ≠ Char.ofNat 123 :=
  C10_mcp_error_shapes "boom" "000001.SZ" _ _ _ _ rfl rfl rfl rfl
